import Mathlib

/-
Verification of the race-estimator core: the FIT anomaly-detection state
machine (scripts/validate_fit_anomaly_detection.py) and the finish-time
projection computations (scripts/analyze_fit.py, scripts/analyze_gpx.py).
Floats are embedded as rationals; the Python detector's mutable instance
fields become an explicit DetectorState threaded through the step function.
-/

namespace RaceEstimator

/-- Constant FIT_STAGNATION_THRESHOLD from FitAnomalyDetector.__init__. -/
def FIT_STAGNATION_THRESHOLD : ℕ := 5

/-- Constant MAX_REASONABLE_PACE from FitAnomalyDetector.__init__. -/
def MAX_REASONABLE_PACE : ℚ := 20.0

/-- Constant MIN_REASONABLE_PACE from FitAnomalyDetector.__init__. -/
def MIN_REASONABLE_PACE : ℚ := 0.05

/-- The four mutable instance fields of FitAnomalyDetector. -/
structure DetectorState where
  last_valid_distance : ℚ
  distance_stagnation_count : ℕ
  last_valid_pace : ℚ
  pace_anomaly_count : ℕ
deriving DecidableEq, Repr

/-- State produced by FitAnomalyDetector.__init__ and by reset: all fields zero. -/
def initState : DetectorState :=
  { last_valid_distance := 0
    distance_stagnation_count := 0
    last_valid_pace := 0
    pace_anomaly_count := 0 }

/-- Tags for the entries the detect method appends to its explanation list.
The insane-pace message carries the offending pace, the stagnation message the
incremented stagnation count, and the spike message the pace ratio and the
incremented anomaly count, exactly the data interpolated into the f-strings. -/
inductive Reason where
  | insanePace (pace : ℚ)
  | stagnation (count : ℕ)
  | distanceFrozen
  | paceSpike (r : ℚ) (count : ℕ)
  | paceSuppress
  | normal
deriving DecidableEq, Repr

/-- Lines 66 to 81 of detect: the pace-consistency check followed by the
fall-through update of last_valid_pace and the normal return. The expl
argument is the explanation list accumulated by the earlier distance check. -/
def paceStage (s : DetectorState) (pace : ℚ) (expl : List Reason) :
    Bool × List Reason × DetectorState :=
  if 0 < s.last_valid_pace then
    let pr := pace / s.last_valid_pace
    if pr > 2.0 ∨ pr < 0.5 then
      let s1 := { s with pace_anomaly_count := s.pace_anomaly_count + 1 }
      if 3 ≤ s1.pace_anomaly_count then
        (false, expl ++ [Reason.paceSpike pr s1.pace_anomaly_count, Reason.paceSuppress], s1)
      else
        (true, expl ++ [Reason.paceSpike pr s1.pace_anomaly_count, Reason.normal],
          { s1 with last_valid_pace := pace })
    else
      (true, expl ++ [Reason.normal],
        { s with pace_anomaly_count := 0, last_valid_pace := pace })
  else
    (true, expl ++ [Reason.normal], { s with last_valid_pace := pace })

/-- FitAnomalyDetector.detect: returns the should-show verdict, the
explanation trail, and the successor state (the mutated self). -/
def detect (s : DetectorState) (elapsed_distance pace : ℚ) :
    Bool × List Reason × DetectorState :=
  if pace < MIN_REASONABLE_PACE ∨ pace > MAX_REASONABLE_PACE then
    (false, [Reason.insanePace pace], s)
  else if |elapsed_distance - s.last_valid_distance| < 0.001 then
    let s1 := { s with distance_stagnation_count := s.distance_stagnation_count + 1 }
    if FIT_STAGNATION_THRESHOLD ≤ s1.distance_stagnation_count then
      (false, [Reason.stagnation s1.distance_stagnation_count, Reason.distanceFrozen], s1)
    else
      paceStage s1 pace [Reason.stagnation s1.distance_stagnation_count]
  else
    paceStage
      { s with distance_stagnation_count := 0, last_valid_distance := elapsed_distance }
      pace []

/-- Successor state of one detect call. -/
def detectState (s : DetectorState) (d p : ℚ) : DetectorState :=
  (detect s d p).2.2

/-- Verdict of one detect call. -/
def detectVerdict (s : DetectorState) (d p : ℚ) : Bool :=
  (detect s d p).1

/-- The pace is inside the validator bounds, the negation of the rejection
condition on line 50. -/
def paceSane (p : ℚ) : Prop :=
  MIN_REASONABLE_PACE ≤ p ∧ p ≤ MAX_REASONABLE_PACE

/-- The PaceEvent dataclass of the validation script. -/
structure PaceEvent where
  elapsed_time_ms : ℤ
  distance_m : ℚ
  calculated_pace : ℚ
  anomaly_type : Option String
  explanation : String
deriving DecidableEq, Repr

/-- One iteration of the loop in test_scenario: the detector is fed only the
event's distance_m and calculated_pace fields. -/
def processEvent (s : DetectorState) (e : PaceEvent) : Bool × List Reason × DetectorState :=
  detect s e.distance_m e.calculated_pace

/-- Verdicts of the test_scenario loop over a whole event list. -/
def runDetector : DetectorState → List PaceEvent → List Bool
  | _, [] => []
  | s, e :: rest => (processEvent s e).1 :: runDetector (processEvent s e).2.2 rest

/-- Post-states of the test_scenario loop over a whole event list. -/
def runStates : DetectorState → List PaceEvent → List DetectorState
  | _, [] => []
  | s, e :: rest => (processEvent s e).2.2 :: runStates (processEvent s e).2.2 rest

/-- Verdict and post-state trace of detect over a list of
(distance, pace) samples. -/
def detectRun : DetectorState → List (ℚ × ℚ) → List (Bool × DetectorState)
  | _, [] => []
  | s, (d, p) :: rest =>
      ((detect s d p).1, (detect s d p).2.2) :: detectRun (detect s d p).2.2 rest

/-- The event list of test_pace_spike_recovery. -/
def test_pace_spike_recovery_events : List PaceEvent :=
  [ ⟨10000, 1000.00, 0.100, some "normal", "Normal pace"⟩,
    ⟨20000, 1050.00, 0.105, some "normal", "Slight variance OK"⟩,
    ⟨30000, 1100.00, 0.111, some "normal", "Gradual change OK"⟩,
    ⟨40000, 900.00, 0.044, some "spike", "SPIKE DOWN (2.5x faster)"⟩,
    ⟨50000, 950.00, 0.105, some "spike", "SPIKE UP (2.4x slower)"⟩,
    ⟨60000, 1000.00, 0.100, some "spike", "Back to normal after 3 spikes - SUPPRESS"⟩,
    ⟨70000, 1050.00, 0.105, some "normal", "Reset on recovery"⟩ ]

/-- Pace computation of analyze_fit.py lines 104 to 108: timer_ms is divided
by 1000 and then by the distance, but only under the distance > 0 guard. -/
def fitPace (timer_ms distance_m : ℚ) : ℚ :=
  if 0 < distance_m then (timer_ms / 1000) / distance_m else 0

/-- The 5K estimate of analyze_fit.py lines 110 to 118: note the strict
distance_m > 100 guard; every rejection path yields 0. -/
def fitEst5k (timer_ms distance_m : ℚ) : ℚ :=
  if 100 < distance_m ∧ MIN_REASONABLE_PACE ≤ fitPace timer_ms distance_m ∧
      fitPace timer_ms distance_m ≤ MAX_REASONABLE_PACE then
    if 0 < 5000 - distance_m then (5000 - distance_m) * fitPace timer_ms distance_m else 0
  else 0

/-- The four display outcomes of analyze_gpx.py lines 165 to 181: a numeric
estimate, the HIT marker for a reached target, and the WARMUP and INSANE
placeholders shown instead of a number. -/
inductive GpxDisplay where
  | est (t : ℚ)
  | hit
  | warmup
  | insane
deriving DecidableEq, Repr

/-- Pace computation of analyze_gpx.py lines 155 to 159. -/
def gpxPace (elapsed_sec distance_m : ℚ) : ℚ :=
  if 0 < distance_m then elapsed_sec / distance_m else 0

/-- The 5K estimate of analyze_gpx.py lines 161 to 181: the warmup guard is
the non-strict distance_m >= 100, and warmup takes priority over insane. -/
def gpxEst5k (elapsed_sec distance_m : ℚ) : GpxDisplay :=
  if 100 ≤ distance_m ∧ MIN_REASONABLE_PACE ≤ gpxPace elapsed_sec distance_m ∧
      gpxPace elapsed_sec distance_m ≤ MAX_REASONABLE_PACE then
    if 0 < 5000 - distance_m then
      GpxDisplay.est ((5000 - distance_m) * gpxPace elapsed_sec distance_m)
    else GpxDisplay.hit
  else if ¬ (100 ≤ distance_m) then GpxDisplay.warmup
  else GpxDisplay.insane

/-- Modelled from the spec: the target-parametric projector
project(elapsed_time, distance, target_distance) of the on-device code
(RaceEstimatorView.mc) is not part of src; section 4.3 defines
pace = elapsed_time / cumulative_distance, guards
cumulative_distance >= 100 and pace within the reasonable-pace bounds
(returning the not-available answer otherwise), and yields
remaining * pace when remaining > 0 and the already-reached value 0 when
remaining <= 0. The Python analyzers instantiate this at target 5000. -/
def project (elapsed_time cumulative_distance target_distance : ℚ) : Option ℚ :=
  if 100 ≤ cumulative_distance ∧
      MIN_REASONABLE_PACE ≤ elapsed_time / cumulative_distance ∧
      elapsed_time / cumulative_distance ≤ MAX_REASONABLE_PACE then
    some (if 0 < target_distance - cumulative_distance then
        (target_distance - cumulative_distance) * (elapsed_time / cumulative_distance)
      else 0)
  else none

/-- Division that signals a zero divisor instead of defaulting to zero. -/
def divOpt (a b : ℚ) : Option ℚ :=
  if b = 0 then none else some (a / b)

/-- The pace stage with its division routed through divOpt, to show the
division is only reached under the last_valid_pace > 0 guard. -/
def paceStageChecked (s : DetectorState) (pace : ℚ) (expl : List Reason) :
    Option (Bool × List Reason × DetectorState) :=
  if 0 < s.last_valid_pace then
    match divOpt pace s.last_valid_pace with
    | none => none
    | some pr =>
      if pr > 2.0 ∨ pr < 0.5 then
        let s1 := { s with pace_anomaly_count := s.pace_anomaly_count + 1 }
        if 3 ≤ s1.pace_anomaly_count then
          some (false, expl ++ [Reason.paceSpike pr s1.pace_anomaly_count, Reason.paceSuppress],
            s1)
        else
          some (true, expl ++ [Reason.paceSpike pr s1.pace_anomaly_count, Reason.normal],
            { s1 with last_valid_pace := pace })
      else
        some (true, expl ++ [Reason.normal],
          { s with pace_anomaly_count := 0, last_valid_pace := pace })
  else some (true, expl ++ [Reason.normal], { s with last_valid_pace := pace })

/-- detect with its division routed through divOpt. -/
def detectChecked (s : DetectorState) (elapsed_distance pace : ℚ) :
    Option (Bool × List Reason × DetectorState) :=
  if pace < MIN_REASONABLE_PACE ∨ pace > MAX_REASONABLE_PACE then
    some (false, [Reason.insanePace pace], s)
  else if |elapsed_distance - s.last_valid_distance| < 0.001 then
    let s1 := { s with distance_stagnation_count := s.distance_stagnation_count + 1 }
    if FIT_STAGNATION_THRESHOLD ≤ s1.distance_stagnation_count then
      some (false, [Reason.stagnation s1.distance_stagnation_count, Reason.distanceFrozen], s1)
    else
      paceStageChecked s1 pace [Reason.stagnation s1.distance_stagnation_count]
  else
    paceStageChecked
      { s with distance_stagnation_count := 0, last_valid_distance := elapsed_distance }
      pace []

/-- fitPace with its distance division routed through divOpt. -/
def fitPaceChecked (timer_ms distance_m : ℚ) : Option ℚ :=
  if 0 < distance_m then divOpt (timer_ms / 1000) distance_m else some 0

/-- gpxPace with its distance division routed through divOpt. -/
def gpxPaceChecked (elapsed_sec distance_m : ℚ) : Option ℚ :=
  if 0 < distance_m then divOpt elapsed_sec distance_m else some 0

/-- A sane pace is not rejected by the sanity check of line 50. -/
theorem paceSane_not_reject (p : ℚ) (hp : paceSane p) :
    ¬ (p < MIN_REASONABLE_PACE ∨ p > MAX_REASONABLE_PACE) := by
  push_neg
  exact ⟨hp.1, hp.2⟩

/-- A sane pace is positive. -/
theorem paceSane_pos (p : ℚ) (hp : paceSane p) : 0 < p :=
  lt_of_lt_of_le (by norm_num [MIN_REASONABLE_PACE]) hp.1

/-- The pace stage is skipped entirely when no prior valid pace exists. -/
theorem paceStage_noPrior (s : DetectorState) (p : ℚ) (expl : List Reason)
    (h0 : ¬ 0 < s.last_valid_pace) :
    paceStage s p expl = (true, expl ++ [Reason.normal], { s with last_valid_pace := p }) := by
  simp [paceStage, h0]

/-- An in-bounds pace ratio resets the anomaly count and accepts the pace. -/
theorem paceStage_inBounds (s : DetectorState) (p : ℚ) (expl : List Reason)
    (h0 : 0 < s.last_valid_pace)
    (hb : ¬ (p / s.last_valid_pace > 2.0 ∨ p / s.last_valid_pace < 0.5)) :
    paceStage s p expl = (true, expl ++ [Reason.normal],
      { s with pace_anomaly_count := 0, last_valid_pace := p }) := by
  simp [paceStage, h0, hb]

/-- A below-threshold spike increments the count and still accepts the pace. -/
theorem paceStage_spikeBelow (s : DetectorState) (p : ℚ) (expl : List Reason)
    (h0 : 0 < s.last_valid_pace)
    (hb : p / s.last_valid_pace > 2.0 ∨ p / s.last_valid_pace < 0.5)
    (hc : s.pace_anomaly_count + 1 < 3) :
    paceStage s p expl = (true,
      expl ++ [Reason.paceSpike (p / s.last_valid_pace) (s.pace_anomaly_count + 1),
        Reason.normal],
      { s with pace_anomaly_count := s.pace_anomaly_count + 1, last_valid_pace := p }) := by
  have hc2 : ¬ 3 ≤ s.pace_anomaly_count + 1 := Nat.not_le.mpr hc
  simp [paceStage, h0, hb, hc2]

/-- The third consecutive spike suppresses and freezes the last valid pace. -/
theorem paceStage_spikeSuppress (s : DetectorState) (p : ℚ) (expl : List Reason)
    (h0 : 0 < s.last_valid_pace)
    (hb : p / s.last_valid_pace > 2.0 ∨ p / s.last_valid_pace < 0.5)
    (hc : 3 ≤ s.pace_anomaly_count + 1) :
    paceStage s p expl = (false,
      expl ++ [Reason.paceSpike (p / s.last_valid_pace) (s.pace_anomaly_count + 1),
        Reason.paceSuppress],
      { s with pace_anomaly_count := s.pace_anomaly_count + 1 }) := by
  simp [paceStage, h0, hb, hc]

/-- A stagnant sample at the stagnation threshold suppresses, freezing
last_valid_distance and leaving the pace fields untouched. -/
theorem detect_stagnationSuppress (s : DetectorState) (d p : ℚ) (hp : paceSane p)
    (hd : |d - s.last_valid_distance| < 0.001)
    (hc : FIT_STAGNATION_THRESHOLD ≤ s.distance_stagnation_count + 1) :
    detect s d p = (false,
      [Reason.stagnation (s.distance_stagnation_count + 1), Reason.distanceFrozen],
      { s with distance_stagnation_count := s.distance_stagnation_count + 1 }) := by
  have hb := paceSane_not_reject p hp
  simp [detect, hb, hd, hc]

/-- A stagnant sample below the threshold proceeds to the pace stage with the
incremented count. -/
theorem detect_stagnationContinue (s : DetectorState) (d p : ℚ) (hp : paceSane p)
    (hd : |d - s.last_valid_distance| < 0.001)
    (hc : s.distance_stagnation_count + 1 < FIT_STAGNATION_THRESHOLD) :
    detect s d p =
      paceStage { s with distance_stagnation_count := s.distance_stagnation_count + 1 } p
        [Reason.stagnation (s.distance_stagnation_count + 1)] := by
  have hb := paceSane_not_reject p hp
  have hc2 : ¬ FIT_STAGNATION_THRESHOLD ≤ s.distance_stagnation_count + 1 := Nat.not_le.mpr hc
  simp [detect, hb, hd, hc2]

/-- A genuinely moving sample resets the stagnation count, accepts the new
distance, and proceeds to the pace stage. -/
theorem detect_freshDistance (s : DetectorState) (d p : ℚ) (hp : paceSane p)
    (hd : ¬ |d - s.last_valid_distance| < 0.001) :
    detect s d p =
      paceStage { s with distance_stagnation_count := 0, last_valid_distance := d } p [] := by
  have hb := paceSane_not_reject p hp
  simp [detect, hb, hd]

/-- A spiking sample's effect on the pace stage: the anomaly count is
incremented, suppression happens exactly when the incremented count reaches 3,
the last valid pace is frozen when suppressing and set to the (positive)
sample pace otherwise. -/
theorem paceStage_spike_facts (s : DetectorState) (p : ℚ) (expl : List Reason)
    (h0 : 0 < s.last_valid_pace)
    (hb : p / s.last_valid_pace > 2.0 ∨ p / s.last_valid_pace < 0.5)
    (hpp : 0 < p) :
    (paceStage s p expl).2.2.pace_anomaly_count = s.pace_anomaly_count + 1 ∧
    ((paceStage s p expl).1 = false ↔ 3 ≤ s.pace_anomaly_count + 1) ∧
    ((paceStage s p expl).1 = false →
      (paceStage s p expl).2.2.last_valid_pace = s.last_valid_pace) ∧
    0 < (paceStage s p expl).2.2.last_valid_pace := by
  by_cases hc3 : 3 ≤ s.pace_anomaly_count + 1
  · rw [paceStage_spikeSuppress s p expl h0 hb hc3]
    simp [hc3, h0]
  · rw [paceStage_spikeBelow s p expl h0 hb (Nat.not_le.mp hc3)]
    simp [hc3, hpp]

/-- Under a non-suppressing distance axis, one spiking sample increments the
pace anomaly count, suppresses exactly when the incremented count reaches 3,
freezes the last valid pace when suppressing, and keeps it positive. -/
theorem detect_spikeStep (s : DetectorState) (d p : ℚ) (hp : paceSane p)
    (hcalm : ¬ (|d - s.last_valid_distance| < 0.001 ∧
      FIT_STAGNATION_THRESHOLD ≤ s.distance_stagnation_count + 1))
    (h0 : 0 < s.last_valid_pace)
    (hb : p / s.last_valid_pace > 2.0 ∨ p / s.last_valid_pace < 0.5) :
    (detect s d p).2.2.pace_anomaly_count = s.pace_anomaly_count + 1 ∧
    ((detect s d p).1 = false ↔ 3 ≤ s.pace_anomaly_count + 1) ∧
    ((detect s d p).1 = false →
      (detect s d p).2.2.last_valid_pace = s.last_valid_pace) ∧
    0 < (detect s d p).2.2.last_valid_pace := by
  have hpp := paceSane_pos p hp
  by_cases hd : |d - s.last_valid_distance| < 0.001
  · have hc5 : s.distance_stagnation_count + 1 < FIT_STAGNATION_THRESHOLD := by
      rcases Nat.lt_or_ge (s.distance_stagnation_count + 1) FIT_STAGNATION_THRESHOLD with h | h
      · exact h
      · exact absurd ⟨hd, h⟩ hcalm
    rw [detect_stagnationContinue s d p hp hd hc5]
    exact paceStage_spike_facts
      { s with distance_stagnation_count := s.distance_stagnation_count + 1 } p
      [Reason.stagnation (s.distance_stagnation_count + 1)] h0 hb hpp
  · rw [detect_freshDistance s d p hp hd]
    exact paceStage_spike_facts
      { s with distance_stagnation_count := 0, last_valid_distance := d } p [] h0 hb hpp

/-- The checked pace stage never hits the zero-divisor branch. -/
theorem paceStageChecked_eq (s : DetectorState) (p : ℚ) (expl : List Reason) :
    paceStageChecked s p expl = some (paceStage s p expl) := by
  by_cases h0 : 0 < s.last_valid_pace
  · have hne : s.last_valid_pace ≠ 0 := ne_of_gt h0
    simp only [paceStageChecked, paceStage, divOpt, if_pos h0, if_neg hne]
    split_ifs <;> rfl
  · simp [paceStageChecked, paceStage, h0]

/-- C4: a pace outside the validator bounds yields a suppress verdict with the
insane-pace reason and leaves every DetectorState field unchanged. -/
theorem C4_insane_pace_rejected_without_mutation (s : DetectorState) (d p : ℚ)
    (h : p < MIN_REASONABLE_PACE ∨ p > MAX_REASONABLE_PACE) :
    detect s d p = (false, [Reason.insanePace p], s) := by
  simp [detect, h]

/-- Witness for C4 at pace 25, above the 20.0 ceiling. -/
theorem C4_insane_pace_rejected_without_mutation_witness :
    ((25 : ℚ) < MIN_REASONABLE_PACE ∨ (25 : ℚ) > MAX_REASONABLE_PACE) ∧
    detect initState 0 25 = (false, [Reason.insanePace 25], initState) := by
  constructor
  · norm_num [MIN_REASONABLE_PACE, MAX_REASONABLE_PACE]
  · exact C4_insane_pace_rejected_without_mutation initState 0 25
      (by norm_num [MIN_REASONABLE_PACE, MAX_REASONABLE_PACE])

/-- C7: detect updates last_valid_pace to the sample pace exactly on the
calls whose verdict is show, and leaves it unchanged on every suppressing
call. -/
theorem C7_last_valid_pace_updated_iff_show (s : DetectorState) (d p : ℚ) :
    (detect s d p).2.2.last_valid_pace =
      if (detect s d p).1 = true then p else s.last_valid_pace := by
  simp only [detect, paceStage]
  split_ifs <;> simp_all

/-- C8: when the distance axis suppresses, the call returns before the pace
axis runs, so the pace anomaly count and the last valid pace are unchanged. -/
theorem C8_distance_suppression_shortcircuits_pace (s : DetectorState) (d p : ℚ)
    (hp : paceSane p)
    (hd : |d - s.last_valid_distance| < 0.001)
    (hc : FIT_STAGNATION_THRESHOLD ≤ s.distance_stagnation_count + 1) :
    (detect s d p).1 = false ∧
    (detect s d p).2.2.pace_anomaly_count = s.pace_anomaly_count ∧
    (detect s d p).2.2.last_valid_pace = s.last_valid_pace := by
  rw [detect_stagnationSuppress s d p hp hd hc]
  exact ⟨rfl, rfl, rfl⟩

/-- Witness for C8: the fifth consecutive frozen-distance sample. -/
theorem C8_distance_suppression_shortcircuits_pace_witness :
    (detect ⟨1539.78, 4, 0.385, 1⟩ 1539.78 0.4).1 = false ∧
    (detect ⟨1539.78, 4, 0.385, 1⟩ 1539.78 0.4).2.2.pace_anomaly_count = 1 ∧
    (detect ⟨1539.78, 4, 0.385, 1⟩ 1539.78 0.4).2.2.last_valid_pace = 0.385 := by
  exact C8_distance_suppression_shortcircuits_pace ⟨1539.78, 4, 0.385, 1⟩ 1539.78 0.4
    (by constructor <;> norm_num [MIN_REASONABLE_PACE, MAX_REASONABLE_PACE])
    (by norm_num)
    (by norm_num [FIT_STAGNATION_THRESHOLD])

/-- C9: the divisions of the detector and of both analyzers are guarded, so
the checked variants, which signal a zero divisor, always return the plain
results: no division by zero is reachable on any input, zero distance and
zero pace included. -/
theorem C9_division_always_guarded :
    (∀ (s : DetectorState) (d p : ℚ), detectChecked s d p = some (detect s d p)) ∧
    (∀ t d : ℚ, fitPaceChecked t d = some (fitPace t d)) ∧
    (∀ e d : ℚ, gpxPaceChecked e d = some (gpxPace e d)) := by
  refine ⟨fun s d p => ?_, fun t d => ?_, fun e d => ?_⟩
  · simp only [detectChecked, detect]
    split_ifs <;> first | rfl | exact paceStageChecked_eq _ _ _
  · by_cases h : 0 < d
    · simp [fitPaceChecked, fitPace, divOpt, h, ne_of_gt h]
    · simp [fitPaceChecked, fitPace, h]
  · by_cases h : 0 < d
    · simp [gpxPaceChecked, gpxPace, divOpt, h, ne_of_gt h]
    · simp [gpxPaceChecked, gpxPace, h]

/-- C10: the per-sample step reads only the distance and pace fields of an
event, so two events agreeing on those yield identical verdicts, reasons and
post-states whatever their elapsed times. -/
theorem C10_detection_independent_of_elapsed_time (s : DetectorState)
    (e1 e2 : PaceEvent)
    (hd : e1.distance_m = e2.distance_m)
    (hp : e1.calculated_pace = e2.calculated_pace) :
    processEvent s e1 = processEvent s e2 := by
  simp [processEvent, hd, hp]

/-- Witness for C10: two events differing only in elapsed time and metadata. -/
theorem C10_detection_independent_of_elapsed_time_witness :
    processEvent initState ⟨10000, 1000, 0.1, some "normal", "a"⟩ =
      processEvent initState ⟨999999, 1000, 0.1, none, "b"⟩ :=
  C10_detection_independent_of_elapsed_time initState _ _ rfl rfl

/-- C6: at cumulative distance exactly 100 with a sane pace, the gpx analyzer
computes the numeric estimate 4900, but the fit analyzer, whose guard is the
strict distance > 100, yields its not-available value 0 instead: the code
contradicts the non-strict MIN_PREDICTION_DISTANCE guard of the claim. -/
theorem C6_warmup_boundary_divergence :
    fitEst5k 100000 100 = 0 ∧ gpxEst5k 100 100 = GpxDisplay.est 4900 := by
  constructor
  · norm_num [fitEst5k, fitPace]
  · norm_num [gpxEst5k, gpxPace, MIN_REASONABLE_PACE, MAX_REASONABLE_PACE]

/-- C5: under the warmup and sane-pace guards the projector returns
remaining times pace when the target is ahead, the already-reached value 0
otherwise, and never a negative estimate; the source analyzers instantiated
at 1000 s and 1000 m give the 4000 s estimate for the 5000 m target. -/
theorem C5_projection_formula (e dist t : ℚ) (he : 0 < e) (hd : 100 ≤ dist)
    (hp : MIN_REASONABLE_PACE ≤ e / dist ∧ e / dist ≤ MAX_REASONABLE_PACE) :
    (0 < t - dist → project e dist t = some ((t - dist) * (e / dist))) ∧
    (t - dist ≤ 0 → project e dist t = some 0) ∧
    (∀ x, project e dist t = some x → 0 ≤ x) ∧
    fitEst5k 1000000 1000 = 4000 ∧
    gpxEst5k 1000 1000 = GpxDisplay.est 4000 := by
  have hpace : 0 < e / dist := lt_of_lt_of_le (by norm_num [MIN_REASONABLE_PACE]) hp.1
  refine ⟨?_, ?_, ?_, ?_, ?_⟩
  · intro hr
    simp [project, hd, hp.1, hp.2, hr]
  · intro hr
    simp [project, hd, hp.1, hp.2, not_lt.mpr hr]
  · intro x hx
    by_cases hr : 0 < t - dist
    · simp [project, hd, hp.1, hp.2, hr] at hx
      rw [← hx]
      exact mul_nonneg (le_of_lt hr) (le_of_lt hpace)
    · simp [project, hd, hp.1, hp.2, hr] at hx
      rw [← hx]
  · norm_num [fitEst5k, fitPace, MIN_REASONABLE_PACE, MAX_REASONABLE_PACE]
  · norm_num [gpxEst5k, gpxPace, MIN_REASONABLE_PACE, MAX_REASONABLE_PACE]

/-- Witness for C5: 1000 seconds over 1000 meters toward 5000 meters
projects 4000 seconds. -/
theorem C5_projection_formula_witness :
    (0 : ℚ) < 1000 ∧ project 1000 1000 5000 = some 4000 := by
  constructor
  · norm_num
  · have h := (C5_projection_formula 1000 1000 5000 (by norm_num) (by norm_num)
      (by constructor <;> norm_num [MIN_REASONABLE_PACE, MAX_REASONABLE_PACE])).1
      (by norm_num)
    rw [h]
    norm_num

/-- C3 counterexample: in the spike-recovery scenario the 6th sample returns
show = true, not the suppression the claim asserts. -/
theorem C3_counterexample_sixth_sample_shows :
    (runDetector initState test_pace_spike_recovery_events)[5]? = some true := by
  norm_num [runDetector, processEvent, detect, paceStage, initState,
    test_pace_spike_recovery_events, MIN_REASONABLE_PACE, MAX_REASONABLE_PACE,
    FIT_STAGNATION_THRESHOLD]

/-- C3 amended: in the spike-recovery scenario the 4th sample's pace 0.044
falls below the validator bound 0.05 and is rejected as insane pace with no
state change, so the pace anomaly count never increments at all; every other
sample returns show = true and no pace-spike suppression ever occurs. -/
theorem C3_spike_recovery_actual_behavior :
    runDetector initState test_pace_spike_recovery_events =
      [true, true, true, false, true, true, true] ∧
    (runStates initState test_pace_spike_recovery_events).map
      (fun st => st.pace_anomaly_count) = [0, 0, 0, 0, 0, 0, 0] ∧
    processEvent ⟨1100, 0, 0.111, 0⟩
        ⟨40000, 900.00, 0.044, some "spike", "SPIKE DOWN (2.5x faster)"⟩ =
      (false, [Reason.insanePace 0.044], ⟨1100, 0, 0.111, 0⟩) := by
  refine ⟨?_, ?_, ?_⟩ <;>
    norm_num [runDetector, runStates, processEvent, detect, paceStage, initState,
      test_pace_spike_recovery_events, MIN_REASONABLE_PACE, MAX_REASONABLE_PACE,
      FIT_STAGNATION_THRESHOLD]

/-- C1: from a state with an established last valid distance and stagnation
count zero, five consecutive samples within the 0.001 stagnation epsilon, all
with sane paces and in-bounds pace ratios, show on the first four calls,
suppress on the fifth, and never move last_valid_distance. -/
theorem C1_five_stagnant_samples_suppress_fifth (s : DetectorState)
    (d1 d2 d3 d4 d5 p1 p2 p3 p4 p5 : ℚ)
    (hc0 : s.distance_stagnation_count = 0)
    (hd1 : |d1 - s.last_valid_distance| < 0.001)
    (hd2 : |d2 - s.last_valid_distance| < 0.001)
    (hd3 : |d3 - s.last_valid_distance| < 0.001)
    (hd4 : |d4 - s.last_valid_distance| < 0.001)
    (hd5 : |d5 - s.last_valid_distance| < 0.001)
    (hp1 : paceSane p1) (hp2 : paceSane p2) (hp3 : paceSane p3)
    (hp4 : paceSane p4) (hp5 : paceSane p5)
    (hr1 : 0 < s.last_valid_pace →
      0.5 ≤ p1 / s.last_valid_pace ∧ p1 / s.last_valid_pace ≤ 2.0)
    (hr2 : 0.5 ≤ p2 / p1 ∧ p2 / p1 ≤ 2.0)
    (hr3 : 0.5 ≤ p3 / p2 ∧ p3 / p2 ≤ 2.0)
    (hr4 : 0.5 ≤ p4 / p3 ∧ p4 / p3 ≤ 2.0)
    (hr5 : 0.5 ≤ p5 / p4 ∧ p5 / p4 ≤ 2.0) :
    (detectRun s [(d1, p1), (d2, p2), (d3, p3), (d4, p4), (d5, p5)]).map Prod.fst =
      [true, true, true, true, false] ∧
    (detectRun s [(d1, p1), (d2, p2), (d3, p3), (d4, p4), (d5, p5)]).map
        (fun r => r.2.last_valid_distance) =
      [s.last_valid_distance, s.last_valid_distance, s.last_valid_distance,
        s.last_valid_distance, s.last_valid_distance] := by
  have hb1 := paceSane_not_reject p1 hp1
  have hb2 := paceSane_not_reject p2 hp2
  have hb3 := paceSane_not_reject p3 hp3
  have hb4 := paceSane_not_reject p4 hp4
  have hb5 := paceSane_not_reject p5 hp5
  have h01 := paceSane_pos p1 hp1
  have h02 := paceSane_pos p2 hp2
  have h03 := paceSane_pos p3 hp3
  have e1 : ∃ c1, detect s d1 p1 = (true, [Reason.stagnation 1, Reason.normal],
      ⟨s.last_valid_distance, 1, p1, c1⟩) := by
    by_cases h0 : 0 < s.last_valid_pace
    · have hnb : ¬ (p1 / s.last_valid_pace > 2.0 ∨ p1 / s.last_valid_pace < 0.5) := by
        push_neg
        exact ⟨(hr1 h0).2, (hr1 h0).1⟩
      exact ⟨0, by
        simp [detect, paceStage, hb1, hd1, hc0, h0, hnb, FIT_STAGNATION_THRESHOLD]⟩
    · exact ⟨s.pace_anomaly_count, by
        simp [detect, paceStage, hb1, hd1, hc0, h0, FIT_STAGNATION_THRESHOLD]⟩
  obtain ⟨c1, e1⟩ := e1
  have hnb2 : ¬ (p2 / p1 > 2.0 ∨ p2 / p1 < 0.5) := by
    push_neg
    exact ⟨hr2.2, hr2.1⟩
  have hnb3 : ¬ (p3 / p2 > 2.0 ∨ p3 / p2 < 0.5) := by
    push_neg
    exact ⟨hr3.2, hr3.1⟩
  have hnb4 : ¬ (p4 / p3 > 2.0 ∨ p4 / p3 < 0.5) := by
    push_neg
    exact ⟨hr4.2, hr4.1⟩
  have e2 : detect ⟨s.last_valid_distance, 1, p1, c1⟩ d2 p2 =
      (true, [Reason.stagnation 2, Reason.normal], ⟨s.last_valid_distance, 2, p2, 0⟩) := by
    simp [detect, paceStage, hb2, hd2, h01, hnb2, FIT_STAGNATION_THRESHOLD]
  have e3 : detect ⟨s.last_valid_distance, 2, p2, 0⟩ d3 p3 =
      (true, [Reason.stagnation 3, Reason.normal], ⟨s.last_valid_distance, 3, p3, 0⟩) := by
    simp [detect, paceStage, hb3, hd3, h02, hnb3, FIT_STAGNATION_THRESHOLD]
  have e4 : detect ⟨s.last_valid_distance, 3, p3, 0⟩ d4 p4 =
      (true, [Reason.stagnation 4, Reason.normal], ⟨s.last_valid_distance, 4, p4, 0⟩) := by
    simp [detect, paceStage, hb4, hd4, h03, hnb4, FIT_STAGNATION_THRESHOLD]
  have e5 : detect ⟨s.last_valid_distance, 4, p4, 0⟩ d5 p5 =
      (false, [Reason.stagnation 5, Reason.distanceFrozen],
        ⟨s.last_valid_distance, 5, p4, 0⟩) := by
    simp [detect, hb5, hd5, FIT_STAGNATION_THRESHOLD]
  refine ⟨?_, ?_⟩ <;> simp [detectRun, e1, e2, e3, e4, e5]

/-- Witness for C1: five frozen samples at distance 1539.78 with pace 0.39
from a state whose last valid pace is 0.385. -/
theorem C1_five_stagnant_samples_suppress_fifth_witness :
    (detectRun ⟨1539.78, 0, 0.385, 0⟩
        [(1539.78, 0.39), (1539.78, 0.39), (1539.78, 0.39), (1539.78, 0.39),
          (1539.78, 0.39)]).map Prod.fst = [true, true, true, true, false] ∧
    (detectRun ⟨1539.78, 0, 0.385, 0⟩
        [(1539.78, 0.39), (1539.78, 0.39), (1539.78, 0.39), (1539.78, 0.39),
          (1539.78, 0.39)]).map (fun r => r.2.last_valid_distance) =
      [1539.78, 1539.78, 1539.78, 1539.78, 1539.78] := by
  exact C1_five_stagnant_samples_suppress_fifth ⟨1539.78, 0, 0.385, 0⟩
    1539.78 1539.78 1539.78 1539.78 1539.78 0.39 0.39 0.39 0.39 0.39
    rfl
    (by norm_num) (by norm_num) (by norm_num) (by norm_num) (by norm_num)
    (by norm_num [paceSane, MIN_REASONABLE_PACE, MAX_REASONABLE_PACE])
    (by norm_num [paceSane, MIN_REASONABLE_PACE, MAX_REASONABLE_PACE])
    (by norm_num [paceSane, MIN_REASONABLE_PACE, MAX_REASONABLE_PACE])
    (by norm_num [paceSane, MIN_REASONABLE_PACE, MAX_REASONABLE_PACE])
    (by norm_num [paceSane, MIN_REASONABLE_PACE, MAX_REASONABLE_PACE])
    (fun _ => by constructor <;> norm_num)
    (by constructor <;> norm_num) (by constructor <;> norm_num)
    (by constructor <;> norm_num) (by constructor <;> norm_num)

/-- C2: from any state with a positive last valid pace, three consecutive
samples whose pace ratio against the evolving last valid pace is outside
the band, each sane and with a non-suppressing distance axis, suppress on the
third sample without updating last_valid_pace there; and any sane,
distance-calm sample whose ratio is inside the band resets the anomaly count
to zero. -/
theorem C2_three_spikes_suppress_third (s : DetectorState) (d1 p1 d2 p2 d3 p3 : ℚ)
    (h0 : 0 < s.last_valid_pace)
    (hp1 : paceSane p1) (hp2 : paceSane p2) (hp3 : paceSane p3)
    (hc1 : ¬ (|d1 - s.last_valid_distance| < 0.001 ∧
      FIT_STAGNATION_THRESHOLD ≤ s.distance_stagnation_count + 1))
    (hc2 : ¬ (|d2 - (detectState s d1 p1).last_valid_distance| < 0.001 ∧
      FIT_STAGNATION_THRESHOLD ≤ (detectState s d1 p1).distance_stagnation_count + 1))
    (hc3 : ¬ (|d3 - (detectState (detectState s d1 p1) d2 p2).last_valid_distance| < 0.001 ∧
      FIT_STAGNATION_THRESHOLD ≤
        (detectState (detectState s d1 p1) d2 p2).distance_stagnation_count + 1))
    (hr1 : p1 / s.last_valid_pace > 2.0 ∨ p1 / s.last_valid_pace < 0.5)
    (hr2 : p2 / (detectState s d1 p1).last_valid_pace > 2.0 ∨
      p2 / (detectState s d1 p1).last_valid_pace < 0.5)
    (hr3 : p3 / (detectState (detectState s d1 p1) d2 p2).last_valid_pace > 2.0 ∨
      p3 / (detectState (detectState s d1 p1) d2 p2).last_valid_pace < 0.5) :
    (detectVerdict (detectState (detectState s d1 p1) d2 p2) d3 p3 = false ∧
      (detectState (detectState (detectState s d1 p1) d2 p2) d3 p3).last_valid_pace =
        (detectState (detectState s d1 p1) d2 p2).last_valid_pace) ∧
    (∀ (t : DetectorState) (d p : ℚ), paceSane p →
      ¬ (|d - t.last_valid_distance| < 0.001 ∧
        FIT_STAGNATION_THRESHOLD ≤ t.distance_stagnation_count + 1) →
      0 < t.last_valid_pace →
      0.5 ≤ p / t.last_valid_pace ∧ p / t.last_valid_pace ≤ 2.0 →
      (detectState t d p).pace_anomaly_count = 0) := by
  constructor
  · simp only [detectState, detectVerdict] at hc2 hc3 hr2 hr3 ⊢
    have A1 := detect_spikeStep s d1 p1 hp1 hc1 h0 hr1
    have A2 := detect_spikeStep (detect s d1 p1).2.2 d2 p2 hp2 hc2 A1.2.2.2 hr2
    have A3 := detect_spikeStep ((detect (detect s d1 p1).2.2 d2 p2).2.2) d3 p3 hp3 hc3
      A2.2.2.2 hr3
    have hge : 3 ≤ (detect (detect s d1 p1).2.2 d2 p2).2.2.pace_anomaly_count + 1 := by
      rw [A2.1, A1.1]
      omega
    have vf := A3.2.1.mpr hge
    exact ⟨vf, A3.2.2.1 vf⟩
  · intro t d p hp hcalm h0t hbnd
    have hnb : ¬ (p / t.last_valid_pace > 2.0 ∨ p / t.last_valid_pace < 0.5) := by
      push_neg
      exact ⟨hbnd.2, hbnd.1⟩
    by_cases hd : |d - t.last_valid_distance| < 0.001
    · have hlt : t.distance_stagnation_count + 1 < FIT_STAGNATION_THRESHOLD := by
        rcases Nat.lt_or_ge (t.distance_stagnation_count + 1) FIT_STAGNATION_THRESHOLD with h | h
        · exact h
        · exact absurd ⟨hd, h⟩ hcalm
      rw [detectState, detect_stagnationContinue t d p hp hd hlt,
        paceStage_inBounds
          { t with distance_stagnation_count := t.distance_stagnation_count + 1 } p
          [Reason.stagnation (t.distance_stagnation_count + 1)] h0t hnb]
    · rw [detectState, detect_freshDistance t d p hp hd,
        paceStage_inBounds
          { t with distance_stagnation_count := 0, last_valid_distance := d } p [] h0t hnb]

/-- Witness for C2: spikes 0.3, 0.9, 2.0 against an initial last valid pace
of 0.1 with strictly advancing distances suppress the third sample. -/
theorem C2_three_spikes_suppress_third_witness :
    detectVerdict (detectState (detectState ⟨0, 0, 0.1, 0⟩ 10 0.3) 20 0.9) 30 2 = false ∧
    (detectState (detectState (detectState ⟨0, 0, 0.1, 0⟩ 10 0.3) 20 0.9) 30 2).last_valid_pace
      = 0.9 := by
  have h := (C2_three_spikes_suppress_third ⟨0, 0, 0.1, 0⟩ 10 0.3 20 0.9 30 2
    (by norm_num)
    (by norm_num [paceSane, MIN_REASONABLE_PACE, MAX_REASONABLE_PACE])
    (by norm_num [paceSane, MIN_REASONABLE_PACE, MAX_REASONABLE_PACE])
    (by norm_num [paceSane, MIN_REASONABLE_PACE, MAX_REASONABLE_PACE])
    (by norm_num [FIT_STAGNATION_THRESHOLD])
    (by norm_num [detectState, detect, paceStage, MIN_REASONABLE_PACE,
      MAX_REASONABLE_PACE, FIT_STAGNATION_THRESHOLD])
    (by norm_num [detectState, detect, paceStage, MIN_REASONABLE_PACE,
      MAX_REASONABLE_PACE, FIT_STAGNATION_THRESHOLD])
    (by norm_num)
    (by norm_num [detectState, detect, paceStage, MIN_REASONABLE_PACE,
      MAX_REASONABLE_PACE, FIT_STAGNATION_THRESHOLD])
    (by norm_num [detectState, detect, paceStage, MIN_REASONABLE_PACE,
      MAX_REASONABLE_PACE, FIT_STAGNATION_THRESHOLD])).1
  refine ⟨h.1, ?_⟩
  rw [h.2]
  norm_num [detectState, detect, paceStage, MIN_REASONABLE_PACE,
    MAX_REASONABLE_PACE, FIT_STAGNATION_THRESHOLD]

end RaceEstimator
